import Mathlib

/-!
Verification of the CartSA crawler (`src/WebCrawler.py`) against its
natural-language specification.

The Python source is shallowly embedded: DOM element handles become a
record of optional text fields (a `none` field models a sub-selector
whose `find_element` call raises), Python `float` prices become `Rat`,
and the driver / network environment is passed explicitly as a function
from page URL to page outcome.
-/

namespace CartSA

/-- The `Product` dataclass (WebCrawler.py lines 22-32).  Python's
`float` prices are modelled as `Rat`; `None` defaults become `Option`
fields defaulting to `none`. -/
structure Product where
  name : String
  price : Rat
  retailer : String
  category : String := "Uncategorized"
  original_price : Option Rat := none
  discount_percentage : Option Rat := none
  product_url : Option String := none
  image_url : Option String := none
  availability : String := "Unknown"
  deriving Repr, DecidableEq

/-- A raw DOM container element, as seen through the Selenium calls the
pipeline makes.  Each field models the `.text` of the corresponding
sub-selector: `none` means `find_element` raises `NoSuchElementException`
for that sub-selector.  `category_text`, `url_attr`, `image_attr` and
`availability_text` record what the optional sub-selectors WOULD return,
so we can state whether the code reads them. -/
structure Element where
  name_text : Option String := none
  price_text : Option String := none
  category_text : Option String := none
  url_attr : Option String := none
  image_attr : Option String := none
  availability_text : Option String := none
  deriving Repr, DecidableEq

/-- Python's `str.strip()` with no argument: remove leading and
trailing whitespace. -/
def pyStrip (s : String) : String :=
  String.mk
    (((s.toList.dropWhile Char.isWhitespace).reverse.dropWhile
        Char.isWhitespace).reverse)

/-- `re.sub(r'[^\d.]', '', price_text)` (line 207): keep only digits and
decimal points. -/
def cleanPriceText (s : String) : String :=
  String.mk (s.toList.filter (fun c => c.isDigit || c = '.'))

/-- Numeric value of a list of ASCII digits, most significant first. -/
def digitsToNat (l : List Char) : Nat :=
  l.foldl (fun acc c => 10 * acc + (c.toNat - 48)) 0

/-- Python `float(s)` restricted to strings made of digits and dots,
which is the only shape `cleanPriceText` can produce.  `float` accepts
such a string exactly when it has at least one digit and at most one
dot (`""`, `"."`, `"1.2.3"` all raise `ValueError`); the value is the
usual decimal reading. -/
def pyFloatOfDigitsDots (s : String) : Option Rat :=
  let cs := s.toList
  if cs.all (fun c => c.isDigit || c = '.')
      && cs.any (fun c => c.isDigit)
      && cs.countP (fun c => c = '.') ≤ 1 then
    let ip := cs.takeWhile (fun c => c ≠ '.')
    let fp := (cs.dropWhile (fun c => c ≠ '.')).drop 1
    some ((digitsToNat ip : Rat) + (digitsToNat fp : Rat) / ((10 : Rat) ^ fp.length))
  else
    none

/-- `float(re.sub(r'[^\d.]', '', price_text))` (line 207), with the
`ValueError` raised on an empty or non-numeric remainder modelled as
`none`. -/
def parsePrice (price_text : String) : Option Rat :=
  pyFloatOfDigitsDots (cleanPriceText price_text)

/-- One iteration of the inner `for container in product_containers`
loop body (lines 194-217): read the `name` sub-selector text and strip
it, read the `price` sub-selector text and strip it, clean and parse
the price, and build a `Product` with only `name`, `price`, `retailer`
set (lines 209-213).  Any missing sub-selector or failed parse raises,
is caught by the inner `except`, and yields no product (`none`). -/
def extractOne (retailer : String) (e : Element) : Option Product :=
  match e.name_text with
  | none => none
  | some nt =>
    match e.price_text with
    | none => none
    | some pt =>
      match parsePrice (pyStrip pt) with
      | none => none
      | some p => some { name := pyStrip nt, price := p, retailer := retailer }

/-- `_extract_products` (lines 181-222) restricted to the inner loop:
the ordered container list is mapped through the per-element body, and
elements whose body raised are skipped. -/
def extract_products (retailer : String) (containers : List Element) : List Product :=
  containers.filterMap (extractOne retailer)

/-- The `crawl_strategy` dictionary of a retailer entry (lines 43-47,
62-66, 80-84).  `.get(key)` on an absent key returns `None`, which is
falsy, so the two pagination flags are modelled as `Bool` fields
defaulting to `false`. -/
structure CrawlStrategy where
  method : String
  wait_element : String
  scroll_pagination : Bool := false
  infinite_scroll : Bool := false
  deriving Repr, DecidableEq

/-- The `selectors` dictionary of a retailer entry. -/
structure Selectors where
  product_container : String
  name : String
  price : String
  category : String
  deriving Repr, DecidableEq

/-- One retailer entry of `RetailCrawlerConfig.RETAILERS`. -/
structure RetailerConfig where
  homepage : String
  product_pages : List String
  crawl_strategy : CrawlStrategy
  selectors : Selectors
  deriving Repr, DecidableEq

/-- The `'pick_n_pay'` entry of `RetailCrawlerConfig.RETAILERS`
(lines 36-54). -/
def pickNPayConfig : RetailerConfig :=
  { homepage := "https://www.pnp.co.za"
    product_pages :=
      [ "https://www.pnp.co.za/pnpstorefront/pnp/en/All-Products",
        "https://www.pnp.co.za/pnpstorefront/pnp/en/Groceries",
        "https://www.pnp.co.za/pnpstorefront/pnp/en/Personal-Care" ]
    crawl_strategy :=
      { method := "selenium", wait_element := ".product-grid",
        scroll_pagination := true }
    selectors :=
      { product_container := ".product-item", name := ".product-name",
        price := ".price", category := ".category-breadcrumb" } }

/-- The `'checkers'` entry of `RetailCrawlerConfig.RETAILERS`
(lines 55-73). -/
def checkersConfig : RetailerConfig :=
  { homepage := "https://www.checkers.co.za"
    product_pages :=
      [ "https://www.checkers.co.za/all-products",
        "https://www.checkers.co.za/groceries",
        "https://www.checkers.co.za/personal-care" ]
    crawl_strategy :=
      { method := "selenium", wait_element := ".product-grid",
        scroll_pagination := true }
    selectors :=
      { product_container := ".product-card", name := ".product-title",
        price := ".current-price", category := ".breadcrumb-item" } }

/-- The `'woolworths'` entry of `RetailCrawlerConfig.RETAILERS`
(lines 74-91).  Note: its strategy sets `infinite_scroll`, not
`scroll_pagination`. -/
def woolworthsConfig : RetailerConfig :=
  { homepage := "https://www.woolworths.co.za"
    product_pages :=
      [ "https://www.woolworths.co.za/cat/Food/_/N-rhf7",
        "https://www.woolworths.co.za/cat/Personal-Care/_/N-1z141z6" ]
    crawl_strategy :=
      { method := "selenium", wait_element := ".product-list",
        infinite_scroll := true }
    selectors :=
      { product_container := ".product-item", name := ".product-name",
        price := ".price", category := ".breadcrumb-item" } }

/-- `RetailCrawlerConfig.RETAILERS` (lines 35-92), as an association
list preserving the source's entry order. -/
def RETAILERS : List (String × RetailerConfig) :=
  [ ("pick_n_pay", pickNPayConfig),
    ("checkers", checkersConfig),
    ("woolworths", woolworthsConfig) ]

/-- `RetailCrawlerConfig.RETAILERS.get(retailer_key)` (line 136). -/
def getRetailer (retailer_key : String) : Option RetailerConfig :=
  (RETAILERS.lookup retailer_key)

/-- What happens when `crawl_retailer` visits one product page: either
some step of the `try` block raises (`driver.get`, the explicit wait,
scrolling, or the outer `find_elements` of `_extract_products` -- the
page-level failure the outer `except` on line 164 catches), or the page
loads and yields an ordered list of container elements. -/
inductive PageOutcome where
  | failure
  | loaded (containers : List Element)
  deriving Repr, DecidableEq

/-- The environment a crawl runs against: what each product-page URL
does when visited. -/
def Env : Type := String → PageOutcome

/-- `_scroll_page` (lines 120-126), instrumented to count performed
scroll iterations: `for _ in range(max_scrolls)` scrolls then sleeps,
never consulting the page, so the loop body only increments the count.
`growth` is the container count visible after each scroll; the code
ignores it (it appears as a parameter precisely to record that). -/
def scroll_page (growth : Nat → Nat) : Nat → Nat → Nat
  | 0, performed => performed
  | Nat.succ k, performed => scroll_page growth k (performed + 1)

/-- The default `max_scrolls=5` of `_scroll_page` (line 120);
`crawl_retailer` calls `self._scroll_page(self.driver)` with no
override (line 156). -/
def DEFAULT_MAX_SCROLLS : Nat := 5

/-- Number of scroll iterations `crawl_retailer` performs during one
page visit (lines 154-156): it scrolls (with the default attempt count)
exactly when `crawl_strategy.get('scroll_pagination')` is truthy; the
`infinite_scroll` key is never consulted. -/
def pageVisitScrolls (growth : Nat → Nat) (cfg : RetailerConfig) : Nat :=
  if cfg.crawl_strategy.scroll_pagination then
    scroll_page growth DEFAULT_MAX_SCROLLS 0
  else 0

/-- `crawl_retailer` (lines 128-167).  `driverOk` is whether
`_setup_selenium` returned a driver (`self.driver` is not `None`).
The per-page `try/except` turns a `PageOutcome.failure` into a log line
and continues; a loaded page contributes its extracted products via
`retailer_products.extend`. -/
def crawl_retailer (driverOk : Bool) (env : Env) (retailer_key : String) :
    List Product :=
  if !driverOk then []
  else
    match getRetailer retailer_key with
    | none => []
    | some cfg =>
      cfg.product_pages.foldl
        (fun acc page =>
          match env page with
          | .failure => acc
          | .loaded es => acc ++ extract_products retailer_key es) []

/-- Number of product pages of one `crawl_retailer` run whose visit
raised (each such page takes the `except` branch on line 164 and is
recorded by `logging.error`). -/
def crawl_page_errors (env : Env) (cfg : RetailerConfig) : Nat :=
  cfg.product_pages.countP (fun page => env page = PageOutcome.failure)

/-- The work one `executor.submit(self.crawl_retailer, retailer)` future
performs: it either returns the retailer's product list, or raises (an
uncaught exception escaping `crawl_retailer`, surfaced by
`future.result()` on line 241). -/
def UnitRun : Type := String → Except String (List Product)

/-- `parallel_crawl` (lines 224-250), restricted to the result map it
builds (the CSV side effect is outside the claims).  The `as_completed`
loop stores `future.result()` under the retailer key when the unit
returned, and on an exception only logs (line 246): no entry is added
for that retailer.  Completion order is nondeterministic; the map is
modelled as an association list in submission order, which fixes the
same key-value map. -/
def parallel_crawl (run : UnitRun) (retailers : List String) :
    List (String × List Product) :=
  retailers.foldl
    (fun acc retailer =>
      match run retailer with
      | .ok products => acc ++ [(retailer, products)]
      | .error _ => acc) []

/-! ## Spec-side definitions

The spec (section 3 and section 4.1) describes a `CrawlResult` status
and an infinite-scroll early-stop rule that have no counterpart in
`src/WebCrawler.py`.  They are written down here, from the spec's
words, to compare the code against. -/

/-- The overall per-retailer status of the spec's `CrawlResult`.
`mixed` is the status the spec spells "partial" (at least one page
errored but at least one product was extracted). -/
inductive CrawlStatus where
  | success
  | mixed
  | failed
  deriving Repr, DecidableEq

/-- Modelled from the spec: the `CrawlResult` status rule of section 3,
which `src/WebCrawler.py` does not implement (`crawl_retailer` returns a
bare product list).  Status is `failed` only when every page for that
retailer errored; `mixed` (the spec's "partial") when at least one page
errored but at least one product was extracted; `success` otherwise. -/
def crawl_status (pageErrors totalPages productCount : Nat) : CrawlStatus :=
  if pageErrors = totalPages then CrawlStatus.failed
  else if 1 ≤ pageErrors ∧ 1 ≤ productCount then CrawlStatus.mixed
  else CrawlStatus.success

/-- Fuel-indexed loop of `specInfiniteScrollCount`: `remaining` scroll
attempts left, `performed` scrolls done so far, `streak` the current
run of consecutive no-growth scrolls. -/
def specScrollGo (growth : Nat → Nat) : Nat → Nat → Nat → Nat
  | 0, performed, _ => performed
  | Nat.succ k, performed, streak =>
    let streakNext := if growth (performed + 1) = growth performed then streak + 1 else 0
    if 2 ≤ streakNext then performed + 1
    else specScrollGo growth k (performed + 1) streakNext

/-- Modelled from the spec: the infinite-scroll rule of section 4.1,
which `src/WebCrawler.py` does not implement.  Scroll up to
`maxAttempts` times, stopping early as soon as two consecutive scrolls
produce no growth in the count of matching containers; `growth k` is
the container count observed after `k` scrolls.  Returns the number of
scrolls performed. -/
def specInfiniteScrollCount (growth : Nat → Nat) (maxAttempts : Nat) : Nat :=
  specScrollGo growth maxAttempts 0 0

/-! ## Concrete fixtures used by counterexamples and witnesses -/

/-- A well-formed product listing element. -/
def elemMilk : Element :=
  { name_text := some "Full Cream Milk 2L", price_text := some "R 22.99" }

/-- Another well-formed product listing element. -/
def elemBread : Element :=
  { name_text := some "Brown Bread", price_text := some "R 18.50" }

/-- An element whose price text has no digits (price parse fails). -/
def elemOutOfStock : Element :=
  { name_text := some "Sold Out Item", price_text := some "Out of stock" }

/-- An element whose `name` sub-selector is absent. -/
def elemNoName : Element :=
  { price_text := some "9.99" }

/-- An element whose `name` sub-selector is present but whose text is
blank (strips to the empty string). -/
def elemBlankName : Element :=
  { name_text := some "   ", price_text := some "5.99" }

/-- An element carrying values for every optional sub-selector. -/
def elemRich : Element :=
  { name_text := some "Milk 2L", price_text := some "R 29.99",
    category_text := some "Dairy", url_attr := some "/p/milk",
    image_attr := some "/img/milk.png", availability_text := some "In Stock" }

/-- The product `_extract_products` builds from `elemMilk`. -/
def prodMilk : Product :=
  { name := "Full Cream Milk 2L", price := (2299 : Rat) / 100,
    retailer := "pick_n_pay" }

/-- The product `_extract_products` builds from `elemBread`. -/
def prodBread : Product :=
  { name := "Brown Bread", price := (1850 : Rat) / 100,
    retailer := "pick_n_pay" }

/-- An environment for a `pick_n_pay` crawl in which page 2 (Groceries)
times out while pages 1 and 3 load one product each. -/
def envC3 : Env := fun page =>
  if page = "https://www.pnp.co.za/pnpstorefront/pnp/en/All-Products" then
    PageOutcome.loaded [elemMilk]
  else if page = "https://www.pnp.co.za/pnpstorefront/pnp/en/Personal-Care" then
    PageOutcome.loaded [elemBread]
  else PageOutcome.failure

/-- An environment in which every page visit fails (its value is
irrelevant once the driver is down). -/
def envAllFail : Env := fun _ => PageOutcome.failure

/-- A strictly growing container count: every scroll loads more
containers. -/
def growthLinear : Nat → Nat := fun n => n

/-- A unit-of-work map where the `checkers` unit raises and every other
unit returns an empty list. -/
def runCheckersThrows : UnitRun := fun retailer =>
  if retailer = "checkers" then Except.error "driver session crash"
  else Except.ok []

/-! ## Helper lemmas -/

/-- A successfully parsed price is non-negative: the cleaned text holds
only digits and dots, so the decimal reading is a sum of non-negative
terms. -/
theorem parsePrice_nonneg (s : String) (q : Rat) (h : parsePrice s = some q) :
    0 ≤ q := by
  simp only [parsePrice, pyFloatOfDigitsDots] at h
  split at h
  · simp only [Option.some.injEq] at h
    rw [← h]
    positivity
  · cases h

/-- Inversion for the per-element loop body: a constructed product
records exactly the stripped name text and the parsed price of its
element, with every other field left at its default. -/
theorem extractOne_inv (retailer : String) (e : Element) (p : Product)
    (h : extractOne retailer e = some p) :
    ∃ nt pt q, e.name_text = some nt ∧ e.price_text = some pt ∧
      parsePrice (pyStrip pt) = some q ∧
      p = { name := pyStrip nt, price := q, retailer := retailer } := by
  cases hn : e.name_text with
  | none => simp [extractOne, hn] at h
  | some nt =>
    cases hp : e.price_text with
    | none => simp [extractOne, hn, hp] at h
    | some pt =>
      cases hq : parsePrice (pyStrip pt) with
      | none => simp [extractOne, hn, hp, hq] at h
      | some q =>
        simp only [extractOne, hn, hp, hq, Option.some.injEq] at h
        exact ⟨nt, pt, q, rfl, rfl, hq, h.symm⟩

/-- An element whose `name` sub-selector is absent yields no product
(the inner `find_element` raises and the element is skipped). -/
theorem extractOne_none_of_no_name (retailer : String) (e : Element)
    (h : e.name_text = none) : extractOne retailer e = none := by
  simp [extractOne, h]

/-- An element whose price text fails to parse yields no product
(`float` raises `ValueError` and the element is skipped). -/
theorem extractOne_none_of_bad_price (retailer : String) (e : Element)
    (pt : String) (hp : e.price_text = some pt)
    (hq : parsePrice (pyStrip pt) = none) : extractOne retailer e = none := by
  cases hn : e.name_text <;> simp [extractOne, hn, hp, hq]

/-- The extraction fold of `crawl_retailer` equals the concatenation of
the per-page extractions of the non-failing pages, in page order. -/
theorem crawl_foldl_eq (key : String) (env : Env) (pages : List String)
    (acc : List Product) :
    pages.foldl (fun a page => match env page with
      | PageOutcome.failure => a
      | PageOutcome.loaded es => a ++ extract_products key es) acc =
    acc ++ (pages.filterMap (fun page => match env page with
      | PageOutcome.failure => none
      | PageOutcome.loaded es => some (extract_products key es))).flatten := by
  induction pages generalizing acc with
  | nil => simp
  | cons p ps ih =>
    cases h : env p with
    | failure => simp [h, ih]
    | loaded es => simp [h, ih]

/-- `parallel_crawl`'s fold, with the accumulator generalized. -/
theorem parallel_crawl_foldl_eq (run : UnitRun) (retailers : List String)
    (acc : List (String × List Product)) :
    retailers.foldl (fun acc r => match run r with
      | Except.ok ps => acc ++ [(r, ps)]
      | Except.error _ => acc) acc =
    acc ++ retailers.filterMap (fun r => match run r with
      | Except.ok ps => some (r, ps)
      | Except.error _ => none) := by
  induction retailers generalizing acc with
  | nil => simp
  | cons s rest ih => cases h : run s <;> simp [h, ih]

/-- The result map holds exactly the retailers whose unit returned,
in submission order. -/
theorem parallel_crawl_eq (run : UnitRun) (retailers : List String) :
    parallel_crawl run retailers =
      retailers.filterMap (fun r => match run r with
        | Except.ok ps => some (r, ps)
        | Except.error _ => none) := by
  rw [parallel_crawl, parallel_crawl_foldl_eq]
  simp

/-- Unfolding `parallel_crawl` one retailer at a time. -/
theorem parallel_crawl_cons (run : UnitRun) (s : String) (rest : List String) :
    parallel_crawl run (s :: rest) =
      (match run s with
       | Except.ok ps => [(s, ps)]
       | Except.error _ => ([] : List (String × List Product))) ++
        parallel_crawl run rest := by
  rw [parallel_crawl_eq, parallel_crawl_eq, List.filterMap_cons]
  cases h : run s <;> simp [h]

/-- A requested retailer whose unit returns a product list is present
in the result map with exactly that list. -/
theorem parallel_crawl_lookup_ok (run : UnitRun) (retailers : List String)
    (r : String) (ps : List Product) (hr : r ∈ retailers)
    (hok : run r = Except.ok ps) :
    (parallel_crawl run retailers).lookup r = some ps := by
  induction retailers with
  | nil => cases hr
  | cons s rest ih =>
    rw [parallel_crawl_cons]
    by_cases hrs : r = s
    · subst hrs
      rw [hok]
      simp [List.lookup_cons]
    · have hmem : r ∈ rest := by
        cases List.mem_cons.mp hr with
        | inl h2 => exact absurd h2 hrs
        | inr h2 => exact h2
      have hbeq : (r == s) = false := beq_eq_false_iff_ne.mpr hrs
      cases h : run s with
      | ok qs => simpa [List.lookup_cons, hbeq] using ih hmem
      | error e => simpa using ih hmem

/-- A retailer whose unit raises has no entry in the result map. -/
theorem parallel_crawl_lookup_error (run : UnitRun) (retailers : List String)
    (r : String) (msg : String) (herr : run r = Except.error msg) :
    (parallel_crawl run retailers).lookup r = none := by
  induction retailers with
  | nil => simp [parallel_crawl]
  | cons s rest ih =>
    rw [parallel_crawl_cons]
    by_cases hrs : r = s
    · subst hrs
      rw [herr]
      simpa using ih
    · have hbeq : (r == s) = false := beq_eq_false_iff_ne.mpr hrs
      cases h : run s with
      | ok qs => simpa [List.lookup_cons, hbeq] using ih
      | error e => simpa using ih

/-- Changing only one retailer's unit of work leaves every other
retailer's entries in the result map untouched. -/
theorem parallel_crawl_agree_outside (run run2 : UnitRun)
    (retailers : List String) (r : String)
    (hagree : ∀ s, s ≠ r → run2 s = run s) :
    (parallel_crawl run2 retailers).filter (fun kv => kv.1 != r) =
      (parallel_crawl run retailers).filter (fun kv => kv.1 != r) := by
  induction retailers with
  | nil => rfl
  | cons s rest ih =>
    rw [parallel_crawl_cons, parallel_crawl_cons, List.filter_append,
      List.filter_append, ih]
    by_cases hs : s = r
    · subst hs
      cases h1 : run2 s <;> cases h2 : run s <;> simp
    · rw [hagree s hs]

/-- `_scroll_page` performs exactly its attempt count, regardless of
how the container count evolves. -/
theorem scroll_page_count (growth : Nat → Nat) (n performed : Nat) :
    scroll_page growth n performed = performed + n := by
  induction n generalizing performed with
  | zero => simp [scroll_page]
  | succ k ih =>
    rw [scroll_page, ih]
    omega

/-! ## Claims -/

/-- Claim C1, counterexample: the claim states `"R 1 299,99"` parses to
`1299.99`, but the code strips the comma (and the spaces) rather than
treating the comma as a decimal separator, so the remainder is
`"129999"` and the parsed value is `129999`, not `1299.99`. -/
theorem claim_C1_counterexample :
    parsePrice "R 1 299,99" = some (129999 : Rat) ∧
    (129999 : Rat) ≠ (129999 : Rat) / 100 := by
  constructor
  · simp +decide [parsePrice, pyFloatOfDigitsDots, cleanPriceText, digitsToNat]
  · norm_num

/-- Claim C1, amended: every character that is not a digit or decimal
point is stripped and the remainder parsed; `"$1,299.99"` and
`"1299.99"` parse to `1299.99`, but `"R 1 299,99"` parses to `129999`
(the comma is stripped, not normalized to a decimal point);
`"Out of stock"` strips to the empty string, fails to parse, and the
element is skipped rather than crashing the extraction. -/
theorem claim_C1 :
    parsePrice "$1,299.99" = some ((129999 : Rat) / 100) ∧
    parsePrice "1299.99" = some ((129999 : Rat) / 100) ∧
    parsePrice "R 1 299,99" = some (129999 : Rat) ∧
    parsePrice "Out of stock" = none ∧
    extract_products "pick_n_pay" [elemMilk, elemOutOfStock, elemBread] =
      [prodMilk, prodBread] := by
  refine ⟨?_, ?_, ?_, rfl, ?_⟩
  · simp +decide [parsePrice, pyFloatOfDigitsDots, cleanPriceText, digitsToNat]
    norm_num
  · simp +decide [parsePrice, pyFloatOfDigitsDots, cleanPriceText, digitsToNat]
    norm_num
  · simp +decide [parsePrice, pyFloatOfDigitsDots, cleanPriceText, digitsToNat]
  · simp +decide [extract_products, extractOne, parsePrice, pyFloatOfDigitsDots,
      cleanPriceText, digitsToNat, pyStrip, elemMilk, elemOutOfStock, elemBread,
      prodMilk, prodBread]
    norm_num

/-- Claim C2: per-element failure isolation.  An element whose
extraction fails contributes nothing and removes nothing: the page's
output is the concatenation of what the elements before and after it
produce, and every element whose extraction succeeds still has its
product in the output. -/
theorem claim_C2 (retailer : String) (xs ys : List Element) (bad : Element)
    (hbad : extractOne retailer bad = none) :
    extract_products retailer (xs ++ bad :: ys) =
      extract_products retailer xs ++ extract_products retailer ys ∧
    ∀ e ∈ xs ++ bad :: ys, ∀ p, extractOne retailer e = some p →
      p ∈ extract_products retailer (xs ++ bad :: ys) := by
  constructor
  · simp [extract_products, List.filterMap_append, List.filterMap_cons, hbad]
  · intro e he p hp
    rw [extract_products, List.mem_filterMap]
    exact ⟨e, he, hp⟩

/-- Witness for C2 at a concrete page: an out-of-stock element between
two good ones is skipped while both neighbours are still extracted. -/
theorem claim_C2_witness :
    extractOne "pick_n_pay" elemOutOfStock = none ∧
    extract_products "pick_n_pay" ([elemMilk] ++ elemOutOfStock :: [elemBread]) =
      extract_products "pick_n_pay" [elemMilk] ++
        extract_products "pick_n_pay" [elemBread] := by
  have hbad : extractOne "pick_n_pay" elemOutOfStock = none := by rfl
  exact ⟨hbad, (claim_C2 "pick_n_pay" [elemMilk] [elemBread] elemOutOfStock hbad).1⟩

/-- Claim C3: per-page failure isolation within a retailer.  A
retailer's crawl returns exactly the concatenated extractions of its
non-failing pages, in page order; in the concrete scenario where page 2
of pick_n_pay's three pages times out, the products of pages 1 and 3
are still returned, and the spec's status rule grades the outcome as
the in-between ("partial") status. -/
theorem claim_C3 :
    (∀ (env : Env) (key : String) (cfg : RetailerConfig),
        getRetailer key = some cfg →
        crawl_retailer true env key =
          (cfg.product_pages.filterMap (fun page =>
            match env page with
            | PageOutcome.failure => none
            | PageOutcome.loaded es => some (extract_products key es))).flatten) ∧
    crawl_retailer true envC3 "pick_n_pay" = [prodMilk, prodBread] ∧
    crawl_status (crawl_page_errors envC3 pickNPayConfig)
      pickNPayConfig.product_pages.length
      (crawl_retailer true envC3 "pick_n_pay").length = CrawlStatus.mixed := by
  have hconc : crawl_retailer true envC3 "pick_n_pay" = [prodMilk, prodBread] := by
    simp +decide [crawl_retailer, getRetailer, RETAILERS, pickNPayConfig, envC3,
      extract_products, extractOne, parsePrice, pyFloatOfDigitsDots,
      cleanPriceText, digitsToNat, pyStrip, elemMilk, elemBread, prodMilk, prodBread]
    norm_num
  refine ⟨?_, hconc, ?_⟩
  · intro env key cfg h
    rw [show crawl_retailer true env key = cfg.product_pages.foldl
        (fun a page => match env page with
          | PageOutcome.failure => a
          | PageOutcome.loaded es => a ++ extract_products key es) [] by
      simp [crawl_retailer, h]]
    rw [crawl_foldl_eq]
    simp
  · rw [hconc]
    decide

/-- Witness for C3 at the concrete timeout scenario. -/
theorem claim_C3_witness :
    crawl_retailer true envC3 "pick_n_pay" =
      (pickNPayConfig.product_pages.filterMap (fun page =>
        match envC3 page with
        | PageOutcome.failure => none
        | PageOutcome.loaded es =>
            some (extract_products "pick_n_pay" es))).flatten :=
  claim_C3.1 envC3 "pick_n_pay" pickNPayConfig rfl

/-- Claim C4, counterexample: with two requested retailers of which the
`checkers` unit raises, the result map has a single entry -- the
`except` branch of `parallel_crawl` (line 246) only logs and stores
nothing, so the failing retailer is absent rather than recorded as
failed with an empty list. -/
theorem claim_C4_counterexample :
    parallel_crawl runCheckersThrows ["pick_n_pay", "checkers"] =
      [("pick_n_pay", [])] ∧
    (parallel_crawl runCheckersThrows ["pick_n_pay", "checkers"]).lookup
      "checkers" = none ∧
    (parallel_crawl runCheckersThrows ["pick_n_pay", "checkers"]).length ≠ 2 := by
  refine ⟨rfl, rfl, by decide⟩

/-- Claim C4, amended: the exception is caught at the dispatch boundary
and the sibling retailers are unaffected, but the failing retailer is
OMITTED from the result map instead of appearing as failed with an
empty list: a requested retailer whose unit returns is present with
exactly its product list, one whose unit raises has no entry, and
changing one retailer's unit never changes the other retailers'
entries. -/
theorem claim_C4 (run : UnitRun) (retailers : List String) (r : String)
    (hr : r ∈ retailers) :
    (∀ ps, run r = Except.ok ps →
      (parallel_crawl run retailers).lookup r = some ps) ∧
    (∀ msg, run r = Except.error msg →
      (parallel_crawl run retailers).lookup r = none) ∧
    (∀ run2, (∀ s, s ≠ r → run2 s = run s) →
      (parallel_crawl run2 retailers).filter (fun kv => kv.1 != r) =
        (parallel_crawl run retailers).filter (fun kv => kv.1 != r)) :=
  ⟨fun ps hok => parallel_crawl_lookup_ok run retailers r ps hr hok,
   fun msg herr => parallel_crawl_lookup_error run retailers r msg herr,
   fun run2 hagree => parallel_crawl_agree_outside run run2 retailers r hagree⟩

/-- Witness for C4 at the concrete two-retailer scenario. -/
theorem claim_C4_witness :
    (parallel_crawl runCheckersThrows ["pick_n_pay", "checkers"]).lookup
      "checkers" = none ∧
    (parallel_crawl runCheckersThrows ["pick_n_pay", "checkers"]).lookup
      "pick_n_pay" = some [] := by
  constructor
  · exact (claim_C4 runCheckersThrows ["pick_n_pay", "checkers"] "checkers"
      (by simp)).2.1 "driver session crash" rfl
  · exact (claim_C4 runCheckersThrows ["pick_n_pay", "checkers"] "pick_n_pay"
      (by simp)).1 [] rfl

/-- Claim C5, counterexample: the woolworths strategy sets
`infinite_scroll`, yet `crawl_retailer` only consults
`scroll_pagination` (line 155), so a page visit performs ZERO scrolls
for it -- even with a strictly growing container count, where the
spec's early-stop rule would perform all five attempts.  No early-stop
logic exists anywhere in the code. -/
theorem claim_C5_counterexample :
    woolworthsConfig.crawl_strategy.infinite_scroll = true ∧
    pageVisitScrolls growthLinear woolworthsConfig = 0 ∧
    specInfiniteScrollCount growthLinear DEFAULT_MAX_SCROLLS = 5 ∧
    (0 : Nat) ≠ 5 := by
  refine ⟨rfl, rfl, by decide, by decide⟩

/-- Claim C5, amended: a strategy with `scroll_pagination` performs
exactly the fixed attempt count (the default 5) regardless of content
growth; a strategy without `scroll_pagination` -- including the
`infinite_scroll` one -- performs no scroll at all; `_scroll_page`
itself always runs its full attempt count. -/
theorem claim_C5 (growth : Nat → Nat) (cfg : RetailerConfig) :
    (cfg.crawl_strategy.scroll_pagination = true →
      pageVisitScrolls growth cfg = DEFAULT_MAX_SCROLLS) ∧
    (cfg.crawl_strategy.scroll_pagination = false →
      pageVisitScrolls growth cfg = 0) ∧
    scroll_page growth DEFAULT_MAX_SCROLLS 0 = DEFAULT_MAX_SCROLLS := by
  refine ⟨?_, ?_, by simp [scroll_page_count]⟩
  · intro h
    simp [pageVisitScrolls, h, scroll_page_count]
  · intro h
    simp [pageVisitScrolls, h]

/-- Witness for C5 at the two registered strategies. -/
theorem claim_C5_witness :
    pageVisitScrolls growthLinear pickNPayConfig = DEFAULT_MAX_SCROLLS ∧
    pageVisitScrolls growthLinear woolworthsConfig = 0 :=
  ⟨(claim_C5 growthLinear pickNPayConfig).1 rfl,
   (claim_C5 growthLinear woolworthsConfig).2.1 rfl⟩

/-- Claim C6: price invariant.  Every constructed product carries a
non-negative price that is the successful parse of some element's price
text, and an element whose price text fails to parse yields no product
at all. -/
theorem claim_C6 :
    (∀ (retailer : String) (es : List Element) (p : Product),
        p ∈ extract_products retailer es →
          0 ≤ p.price ∧
          ∃ e ∈ es, ∃ pt, e.price_text = some pt ∧
            parsePrice (pyStrip pt) = some p.price) ∧
    (∀ (retailer : String) (e : Element) (pt : String),
        e.price_text = some pt → parsePrice (pyStrip pt) = none →
          extractOne retailer e = none) := by
  constructor
  · intro retailer es p hp
    rw [extract_products, List.mem_filterMap] at hp
    obtain ⟨e, he, hex⟩ := hp
    obtain ⟨nt, pt, q, hn, hpt, hq, hpeq⟩ := extractOne_inv retailer e p hex
    subst hpeq
    exact ⟨parsePrice_nonneg _ _ hq, e, he, pt, hpt, hq⟩
  · exact extractOne_none_of_bad_price

/-- Witness for C6 at concrete elements. -/
theorem claim_C6_witness :
    (0 ≤ prodMilk.price ∧
      ∃ e ∈ [elemMilk], ∃ pt, e.price_text = some pt ∧
        parsePrice (pyStrip pt) = some prodMilk.price) ∧
    extractOne "pick_n_pay" elemOutOfStock = none := by
  constructor
  · refine claim_C6.1 "pick_n_pay" [elemMilk] prodMilk ?_
    have h1 : extract_products "pick_n_pay" [elemMilk] = [prodMilk] := by
      simp +decide [extract_products, extractOne, parsePrice, pyFloatOfDigitsDots,
        cleanPriceText, digitsToNat, pyStrip, elemMilk, prodMilk]
      norm_num
    rw [h1]
    exact List.mem_singleton.mpr rfl
  · exact claim_C6.2 "pick_n_pay" elemOutOfStock "Out of stock" rfl rfl

/-- Claim C7, counterexample: an element whose name text is present but
blank (stripping to the empty string) with a valid price DOES yield a
product, whose name is the empty string -- the code never validates
name non-emptiness. -/
theorem claim_C7_counterexample :
    elemBlankName.name_text = some "   " ∧
    extractOne "pick_n_pay" elemBlankName =
      some { name := "", price := (599 : Rat) / 100, retailer := "pick_n_pay" } := by
  constructor
  · rfl
  · simp +decide [extractOne, parsePrice, pyFloatOfDigitsDots, cleanPriceText,
      digitsToNat, pyStrip, elemBlankName]
    norm_num

/-- Claim C7, amended: an element whose name sub-selector is ABSENT
never yields a product, and every constructed product's name and price
are read from its element (the name being the stripped name text, with
no non-emptiness check). -/
theorem claim_C7 (retailer : String) (e : Element) :
    (e.name_text = none → extractOne retailer e = none) ∧
    ∀ p, extractOne retailer e = some p →
      ∃ nt pt q, e.name_text = some nt ∧ p.name = pyStrip nt ∧
        e.price_text = some pt ∧ parsePrice (pyStrip pt) = some q ∧
        p.price = q := by
  constructor
  · exact extractOne_none_of_no_name retailer e
  · intro p hp
    obtain ⟨nt, pt, q, hn, hpt, hq, hpeq⟩ := extractOne_inv retailer e p hp
    subst hpeq
    exact ⟨nt, pt, q, hn, rfl, hpt, hq, rfl⟩

/-- Witness for C7 at concrete elements. -/
theorem claim_C7_witness :
    extractOne "pick_n_pay" elemNoName = none ∧
    ∃ nt pt q, elemMilk.name_text = some nt ∧ prodMilk.name = pyStrip nt ∧
      elemMilk.price_text = some pt ∧ parsePrice (pyStrip pt) = some q ∧
      prodMilk.price = q := by
  constructor
  · exact (claim_C7 "pick_n_pay" elemNoName).1 rfl
  · refine (claim_C7 "pick_n_pay" elemMilk).2 prodMilk ?_
    simp +decide [extractOne, parsePrice, pyFloatOfDigitsDots, cleanPriceText,
      digitsToNat, pyStrip, elemMilk, prodMilk]
    norm_num

/-- Claim C8, counterexample: with the driver down (`_setup_selenium`
returned `None`), `parallel_crawl` over the full registry still
dispatches every retailer's unit and produces an (empty) per-retailer
result for all three -- the cycle does not abort before dispatch. -/
theorem claim_C8_counterexample :
    parallel_crawl (fun r => Except.ok (crawl_retailer false envAllFail r))
      (RETAILERS.map Prod.fst) =
      [("pick_n_pay", []), ("checkers", []), ("woolworths", [])] := by
  rfl

/-- Claim C8, amended: driver initialization failure is NOT fatal to
the cycle: each dispatched `crawl_retailer` unit checks `self.driver`
and immediately returns an empty list, so the result map holds an
empty-list entry for every requested retailer. -/
theorem claim_C8 (env : Env) (key : String) (retailers : List String) :
    crawl_retailer false env key = [] ∧
    parallel_crawl (fun r => Except.ok (crawl_retailer false env r)) retailers =
      retailers.map (fun r => (r, ([] : List Product))) := by
  constructor
  · rfl
  · induction retailers with
    | nil => rfl
    | cons s rest ih =>
      rw [parallel_crawl_cons]
      have hz : crawl_retailer false env s = [] := rfl
      simp [hz, ih]

/-- Witness for C8 at the three registered retailers. -/
theorem claim_C8_witness :
    crawl_retailer false envAllFail "pick_n_pay" = [] ∧
    parallel_crawl (fun r => Except.ok (crawl_retailer false envAllFail r))
      ["pick_n_pay", "checkers", "woolworths"] =
      [("pick_n_pay", []), ("checkers", []), ("woolworths", [])] :=
  ⟨(claim_C8 envAllFail "pick_n_pay" []).1,
   (claim_C8 envAllFail "pick_n_pay" ["pick_n_pay", "checkers", "woolworths"]).2⟩

/-- Claim C9, counterexample: an element carrying a category, URL,
image, and availability yields a product with the defaults
"Uncategorized", "Unknown", and missing URLs -- the optional
sub-selectors are never read, not merely defaulted when absent. -/
theorem claim_C9_counterexample :
    elemRich.category_text = some "Dairy" ∧
    elemRich.availability_text = some "In Stock" ∧
    (extractOne "pick_n_pay" elemRich).map Product.category =
      some "Uncategorized" ∧
    (extractOne "pick_n_pay" elemRich).map Product.availability =
      some "Unknown" ∧
    (extractOne "pick_n_pay" elemRich).map Product.product_url = some none ∧
    ("Uncategorized" : String) ≠ "Dairy" := by
  have h : extractOne "pick_n_pay" elemRich =
      some { name := "Milk 2L", price := (2999 : Rat) / 100,
             retailer := "pick_n_pay" } := by
    simp +decide [extractOne, parsePrice, pyFloatOfDigitsDots, cleanPriceText,
      digitsToNat, pyStrip, elemRich]
    norm_num
  refine ⟨rfl, rfl, ?_, ?_, ?_, by decide⟩ <;> rw [h] <;> rfl

/-- Claim C9, amended: only the `name` and `price` sub-selectors are
ever read; every constructed product carries the default category
"Uncategorized", availability "Unknown", and no URLs, and the
extraction result depends only on the element's name and price
texts. -/
theorem claim_C9 (retailer : String) (e e2 : Element) :
    (∀ p, extractOne retailer e = some p →
      p.category = "Uncategorized" ∧ p.availability = "Unknown" ∧
      p.product_url = none ∧ p.image_url = none ∧
      p.original_price = none ∧ p.discount_percentage = none) ∧
    (e.name_text = e2.name_text → e.price_text = e2.price_text →
      extractOne retailer e = extractOne retailer e2) := by
  constructor
  · intro p hp
    obtain ⟨nt, pt, q, hn, hpt, hq, hpeq⟩ := extractOne_inv retailer e p hp
    subst hpeq
    exact ⟨rfl, rfl, rfl, rfl, rfl, rfl⟩
  · intro hn hp
    unfold extractOne
    rw [hn, hp]

/-- Witness for C9 at concrete elements. -/
theorem claim_C9_witness :
    (prodMilk.category = "Uncategorized" ∧ prodMilk.availability = "Unknown" ∧
      prodMilk.product_url = none ∧ prodMilk.image_url = none ∧
      prodMilk.original_price = none ∧ prodMilk.discount_percentage = none) ∧
    extractOne "pick_n_pay" elemRich =
      extractOne "pick_n_pay"
        { elemRich with category_text := none, availability_text := none } := by
  constructor
  · refine (claim_C9 "pick_n_pay" elemMilk elemMilk).1 prodMilk ?_
    simp +decide [extractOne, parsePrice, pyFloatOfDigitsDots, cleanPriceText,
      digitsToNat, pyStrip, elemMilk, prodMilk]
    norm_num
  · exact (claim_C9 "pick_n_pay" elemRich
      { elemRich with category_text := none, availability_text := none }).2 rfl rfl

/-- Claim C10: an unknown retailer identifier makes `crawl_retailer`
return an empty product list without raising (the registry lookup
returns `None`, an error is logged, and the method returns `[]`
touching no state). -/
theorem claim_C10 (driverOk : Bool) (env : Env) (key : String)
    (h : getRetailer key = none) :
    crawl_retailer driverOk env key = [] := by
  cases driverOk <;> simp [crawl_retailer, h]

/-- Witness for C10 at a concrete unregistered identifier. -/
theorem claim_C10_witness :
    getRetailer "takealot" = none ∧ crawl_retailer true envC3 "takealot" = [] := by
  have h : getRetailer "takealot" = none := by rfl
  exact ⟨h, claim_C10 true envC3 "takealot" h⟩

end CartSA
